import Mathlib

/-!
Shallow embedding of `modularflow_config.py`, the single-file configuration
facade of the manosaba_ai repository, together with proofs of its
specification claims.

The Python module holds nine module-level constants (three ports, three
project-identity strings, three command strings), a class
`ManosabaAIConfig` with five pure getters returning dict literals and one
side-effecting `install()` method, and an `if __name__ == "__main__"`
entry point dispatching on three boolean flags.

Python dict literals are embedded as ordered association lists (`PyVal.obj`),
preserving insertion order exactly as written in the source.  Python integers
are embedded as `Int`; f-string interpolation of an integer is embedded as
`intToDec`, a decimal rendering function proved injective below.
-/

/-- Embedding of the Python values that appear in the module: strings,
integers, lists and (ordered) dicts with string keys. -/
inductive PyVal where
  | str : String → PyVal
  | int : Int → PyVal
  | list : List PyVal → PyVal
  | obj : List (String × PyVal) → PyVal

/-- Key lookup in an embedded dict (`d["k"]` in Python); `none` on a
non-dict or a missing key. -/
def PyVal.lookup : PyVal → String → Option PyVal
  | .obj l, k => l.lookup k
  | _, _ => none

/-- The keys of an embedded dict, in insertion order. -/
def PyVal.topKeys : PyVal → List String
  | .obj l => l.map Prod.fst
  | _ => []

/-- Big-endian decimal digits of a natural number (`[8, 0, 0, 0]` for 8000);
the digit list of `0` is `[0]`, matching Python's `str(0) = "0"`. -/
def decDigits (n : Nat) : List Nat :=
  if h : n < 10 then [n]
  else decDigits (n / 10) ++ [n % 10]
termination_by n
decreasing_by
  exact Nat.div_lt_self (by omega) (by omega)

/-- The character for a single decimal digit (`0 ↦ '0'`, ..., `9 ↦ '9'`). -/
def digitCharOf (d : Nat) : Char := Char.ofNat (48 + d)

/-- Decimal rendering of a natural number, embedding Python's `str` on a
non-negative `int`. -/
def natToDec (n : Nat) : String := ⟨(decDigits n).map digitCharOf⟩

/-- Decimal rendering of an integer, embedding Python's `str` on an `int`
(hence also f-string interpolation `f"...{n}..."`). -/
def intToDec : Int → String
  | .ofNat n => natToDec n
  | .negSucc n => "-" ++ natToDec (n + 1)

/-- The nine module-level constants of `modularflow_config.py` (the
"主要配置" block, lines 10–23), gathered into one record so that the claims
can quantify over their values.  Ports are Python ints, commands and
identity fields are strings. -/
structure Config where
  FRONTEND_PORT : Int
  BACKEND_PORT : Int
  WEBSOCKET_PORT : Int
  PROJECT_NAME : String
  DISPLAY_NAME : String
  PROJECT_TYPE : String
  INSTALL_COMMAND : String
  DEV_COMMAND : String
  BUILD_COMMAND : String
deriving DecidableEq, Repr

/-- The constant values actually written in the source file. -/
def defaultConfig : Config :=
  { FRONTEND_PORT := 3002
    BACKEND_PORT := 8000
    WEBSOCKET_PORT := 8000
    PROJECT_NAME := "manosaba_ai"
    DISPLAY_NAME := "Manosaba AI"
    PROJECT_TYPE := "nextjs"
    INSTALL_COMMAND := "pnpm install"
    DEV_COMMAND := "pnpm run dev"
    BUILD_COMMAND := "pnpm run build" }

namespace ManosabaAIConfig

/-- `ManosabaAIConfig.get_project_info` (source lines 37–46). -/
def get_project_info (c : Config) : PyVal :=
  .obj [("name", .str c.PROJECT_NAME),
        ("display_name", .str c.DISPLAY_NAME),
        ("version", .str "1.0.0"),
        ("description", .str "基于Next.js的AI智能助手应用"),
        ("type", .str c.PROJECT_TYPE),
        ("author", .str "Manosaba Team"),
        ("license", .str "MIT")]

/-- `ManosabaAIConfig.get_runtime_config` (source lines 48–56). -/
def get_runtime_config (c : Config) : PyVal :=
  .obj [("port", .int c.FRONTEND_PORT),
        ("install_command", .str c.INSTALL_COMMAND),
        ("dev_command", .str c.DEV_COMMAND),
        ("build_command", .str c.BUILD_COMMAND),
        ("test_command", .str "pnpm test"),
        ("lint_command", .str "pnpm run lint")]

/-- `ManosabaAIConfig.get_dependencies` (source lines 58–64). -/
def get_dependencies (_c : Config) : PyVal :=
  .obj [("required_tools", .list [.str "node", .str "pnpm"]),
        ("optional_tools", .list [.str "yarn", .str "npm"]),
        ("node_version", .str ">=18.0.0"),
        ("pnpm_version", .str ">=8.0.0")]

/-- `ManosabaAIConfig.get_api_config` (source lines 66–71); the f-strings
interpolate the configured ports. -/
def get_api_config (c : Config) : PyVal :=
  .obj [("api_endpoint",
           .str ("http://localhost:" ++ intToDec c.BACKEND_PORT ++ "/api/v1")),
        ("websocket_url",
           .str ("ws://localhost:" ++ intToDec c.WEBSOCKET_PORT ++ "/ws")),
        ("cors_origins",
           .list [.str ("http://localhost:" ++ intToDec c.FRONTEND_PORT)])]

/-- `ManosabaAIConfig.get_env_config` (source lines 73–85); the
"development" values interpolate the ports, the "production" values are
hardcoded literals. -/
def get_env_config (c : Config) : PyVal :=
  .obj [("development",
          .obj [("NODE_ENV", .str "development"),
                ("NEXT_PUBLIC_API_URL",
                   .str ("http://localhost:" ++ intToDec c.BACKEND_PORT)),
                ("NEXT_PUBLIC_WS_URL",
                   .str ("ws://localhost:" ++ intToDec c.WEBSOCKET_PORT ++ "/ws"))]),
        ("production",
          .obj [("NODE_ENV", .str "production"),
                ("NEXT_PUBLIC_API_URL", .str "https://api.manosaba.com"),
                ("NEXT_PUBLIC_WS_URL", .str "wss://api.manosaba.com/ws")])]

end ManosabaAIConfig

/-- Embedding of Python's `str.split()` with no argument: split on runs of
spaces and drop empty tokens (`"pnpm install".split() = ["pnpm", "install"]`). -/
def pySplit (s : String) : List String :=
  (s.splitOn " ").filter (fun t => t ≠ "")

/-- The observable outcome of `subprocess.run(cmd, cwd=..., check=True)`:
either the child process ran and exited with some status (Python raises
`CalledProcessError` when the status is non-zero, because of `check=True`),
or the child could not be launched at all and the spawn itself raised an
`OSError` such as `FileNotFoundError`. -/
inductive SpawnOutcome where
  | exited : Int → SpawnOutcome
  | launchFailure : String → SpawnOutcome
deriving DecidableEq, Repr

/-- The `str()` of the `CalledProcessError` raised for a non-zero exit
status, as printed by `print(f"❌ 安装失败: {e}")`. -/
def calledProcessErrorMsg (cmd : List String) (status : Int) : String :=
  "Command " ++ toString (repr cmd) ++ " returned non-zero exit status "
    ++ intToDec status ++ "."

namespace ManosabaAIConfig

/-- `ManosabaAIConfig.install` (source lines 87–96).  `spawn` is the
environment's process launcher, applied to the token list
`INSTALL_COMMAND.split()`.  The result is the list of lines printed to
standard output paired with the method's outcome: `Except.ok b` when the
method returns the boolean `b`, `Except.error e` when an exception `e`
escapes it.  The `try` block catches only `subprocess.CalledProcessError`
(the non-zero-exit case, printing `❌ 安装失败: ...` and returning
`False`); an `OSError` from a failed launch is not caught and propagates. -/
def install (c : Config) (spawn : List String → SpawnOutcome) :
    List String × Except String Bool :=
  let banner := "🚀 安装 " ++ c.DISPLAY_NAME ++ "..."
  let cmd := pySplit c.INSTALL_COMMAND
  match spawn cmd with
  | .exited r =>
      if r = 0 then ([banner, "✅ 安装完成"], .ok true)
      else ([banner, "❌ 安装失败: " ++ calledProcessErrorMsg cmd r], .ok false)
  | .launchFailure e => ([banner], .error e)

end ManosabaAIConfig

/-- The three `store_true` flags registered on the argument parser
(source lines 104–106). -/
structure Args where
  get_config : Bool
  install : Bool
  info : Bool
deriving DecidableEq, Repr

/-- What the `__main__` block does after parsing: print a JSON document,
run the install, print the three info lines, or print the parser's help
text.  None of these is an error; the process exits normally in every
case. -/
inductive MainAction where
  | printJson : PyVal → MainAction
  | runInstall : MainAction
  | printInfo : List String → MainAction
  | printHelp : MainAction

/-- The dict serialized by the `--get-config` branch (source lines
112–118). -/
def fullConfigObj (c : Config) : PyVal :=
  .obj [("project", ManosabaAIConfig.get_project_info c),
        ("runtime", ManosabaAIConfig.get_runtime_config c),
        ("dependencies", ManosabaAIConfig.get_dependencies c),
        ("api", ManosabaAIConfig.get_api_config c),
        ("environment", ManosabaAIConfig.get_env_config c)]

/-- The `if args.get_config: ... elif args.install: ... elif args.info:
... else: parser.print_help()` dispatch of the `__main__` block (source
lines 111–127). -/
def mainAction (c : Config) (a : Args) : MainAction :=
  if a.get_config then .printJson (fullConfigObj c)
  else if a.install then .runInstall
  else if a.info then
    .printInfo ["项目: " ++ c.DISPLAY_NAME ++ " (" ++ c.PROJECT_NAME ++ ")",
                "类型: " ++ c.PROJECT_TYPE,
                "端口: " ++ intToDec c.FRONTEND_PORT]
  else .printHelp

/-- `n` spaces, for JSON indentation. -/
def spacesOf (n : Nat) : String := ⟨List.replicate n ' '⟩

/-- One hexadecimal digit character. -/
def hexDigitChar (d : Nat) : Char :=
  if d < 10 then Char.ofNat (48 + d) else Char.ofNat (87 + d)

/-- How `json.dumps(..., ensure_ascii=False)` renders one character inside
a string literal: `"` and `\` are escaped, the common control characters
get their two-character escapes, other control characters get `\u00XX`,
and everything else (ASCII and non-ASCII alike) is passed through. -/
def jsonEscapeChar (ch : Char) : String :=
  if ch = '"' then "\\\""
  else if ch = '\\' then "\\\\"
  else if ch = '\n' then "\\n"
  else if ch = '\t' then "\\t"
  else if ch = '\r' then "\\r"
  else if ch = '\x08' then "\\b"
  else if ch = '\x0c' then "\\f"
  else if ch.toNat < 32 then
    "\\u00" ++ ⟨[hexDigitChar (ch.toNat / 16), hexDigitChar (ch.toNat % 16)]⟩
  else String.singleton ch

/-- A JSON string literal for `s`, non-ASCII preserved. -/
def jsonQuote (s : String) : String :=
  "\"" ++ String.join (s.data.map jsonEscapeChar) ++ "\""

mutual

/-- `json.dumps(v, indent=2, ensure_ascii=False)` at nesting level `lvl`. -/
def dumpVal (lvl : Nat) : PyVal → String
  | .str s => jsonQuote s
  | .int i => intToDec i
  | .list [] => "[]"
  | .list (v :: vs) =>
      "[\n" ++ dumpItems lvl (v :: vs) ++ "\n" ++ spacesOf (2 * lvl) ++ "]"
  | .obj [] => "\x7b\x7d"
  | .obj (p :: ps) =>
      "\x7b\n" ++ dumpPairs lvl (p :: ps) ++ "\n" ++ spacesOf (2 * lvl) ++ "\x7d"

/-- The comma-and-newline separated items of a JSON array body. -/
def dumpItems (lvl : Nat) : List PyVal → String
  | [] => ""
  | [v] => spacesOf (2 * (lvl + 1)) ++ dumpVal (lvl + 1) v
  | v :: v2 :: vs =>
      spacesOf (2 * (lvl + 1)) ++ dumpVal (lvl + 1) v ++ ",\n"
        ++ dumpItems lvl (v2 :: vs)

/-- The comma-and-newline separated `"key": value` pairs of a JSON object
body. -/
def dumpPairs (lvl : Nat) : List (String × PyVal) → String
  | [] => ""
  | [(k, v)] => spacesOf (2 * (lvl + 1)) ++ jsonQuote k ++ ": " ++ dumpVal (lvl + 1) v
  | (k, v) :: p2 :: ps =>
      spacesOf (2 * (lvl + 1)) ++ jsonQuote k ++ ": " ++ dumpVal (lvl + 1) v
        ++ ",\n" ++ dumpPairs lvl (p2 :: ps)

end

/-- `json.dumps(v, indent=2, ensure_ascii=False)` as called at top level. -/
def pyDumps (v : PyVal) : String := dumpVal 0 v

/-- Names for the five pure getters of the facade. -/
inductive GetterName where
  | project
  | runtime
  | deps
  | api
  | env

/-- The five pure getters as plain functions of the constants. -/
def getterFun : GetterName → Config → PyVal
  | .project => ManosabaAIConfig.get_project_info
  | .runtime => ManosabaAIConfig.get_runtime_config
  | .deps => ManosabaAIConfig.get_dependencies
  | .api => ManosabaAIConfig.get_api_config
  | .env => ManosabaAIConfig.get_env_config

/-- The five pure getters embedded in `Except`, recording that their bodies
contain no failure path (no `raise`, no fallible call): every result is
`Except.ok` of the dict literal each method builds. -/
def runGetter (c : Config) (g : GetterName) : Except String PyVal :=
  Except.ok (getterFun g c)

/-- Two successive calls of a getter with the constants unchanged in
between. -/
def callTwice (f : Config → PyVal) (c : Config) : PyVal × PyVal := (f c, f c)

/-- Digits of a rendered number, read back: the left inverse used to prove
`decDigits` injective. -/
def fromDecDigits (l : List Nat) : Nat := l.foldl (fun a d => a * 10 + d) 0

/-- The default constants with only `BACKEND_PORT` changed (to 9000). -/
def backend9000 : Config := { defaultConfig with BACKEND_PORT := 9000 }

/-- The default constants with only `WEBSOCKET_PORT` changed (to 9001). -/
def websocket9001 : Config := { defaultConfig with WEBSOCKET_PORT := 9001 }

/-- The message of the `FileNotFoundError` Python raises when the install
executable does not exist. -/
def enoentMsg : String := "[Errno 2] No such file or directory: 'pnpm'"

/-! ## Decimal rendering is injective

`intToDec` embeds Python's `str` on `int`; two distinct ports always render
to distinct URL strings.  This section proves it, via the left inverse
`fromDecDigits`. -/

theorem fromDecDigits_decDigits (n : Nat) : fromDecDigits (decDigits n) = n := by
  induction n using Nat.strong_induction_on with
  | _ n ih =>
    rw [decDigits]
    split
    · rename_i h
      simp [fromDecDigits]
    · rename_i h
      have h1 : n / 10 < n := Nat.div_lt_self (by omega) (by omega)
      have h2 := ih (n / 10) h1
      simp only [fromDecDigits] at h2 ⊢
      rw [List.foldl_append]
      simp only [List.foldl_cons, List.foldl_nil]
      rw [h2]
      omega

theorem decDigits_injective : Function.Injective decDigits :=
  Function.LeftInverse.injective fromDecDigits_decDigits

theorem decDigits_lt (n : Nat) : ∀ d ∈ decDigits n, d < 10 := by
  induction n using Nat.strong_induction_on with
  | _ n ih =>
    rw [decDigits]
    split
    · rename_i h
      intro d hd
      simp at hd
      omega
    · rename_i h
      intro d hd
      rw [List.mem_append] at hd
      rcases hd with hd | hd
      · exact ih (n / 10) (Nat.div_lt_self (by omega) (by omega)) d hd
      · simp at hd
        omega

theorem decDigits_ne_nil (n : Nat) : decDigits n ≠ [] := by
  rw [decDigits]
  split <;> simp

theorem toNat_digitCharOf {d : Nat} (h : d < 10) : (digitCharOf d).toNat = 48 + d := by
  interval_cases d <;> decide

theorem digitCharOf_inj {d1 d2 : Nat} (h1 : d1 < 10) (h2 : d2 < 10)
    (h : digitCharOf d1 = digitCharOf d2) : d1 = d2 := by
  have e1 : (digitCharOf d1).toNat = (digitCharOf d2).toNat := by rw [h]
  rw [toNat_digitCharOf h1, toNat_digitCharOf h2] at e1
  omega

theorem digitCharOf_ne_dash {d : Nat} (h : d < 10) : digitCharOf d ≠ '-' := by
  interval_cases d <;> decide

theorem map_digitCharOf_inj : ∀ l1 l2 : List Nat, (∀ d ∈ l1, d < 10) → (∀ d ∈ l2, d < 10) →
    l1.map digitCharOf = l2.map digitCharOf → l1 = l2 := by
  intro l1
  induction l1 with
  | nil =>
    intro l2 _ _ h
    cases l2 with
    | nil => rfl
    | cons b bs => simp at h
  | cons a as ih =>
    intro l2 h1 h2 h
    cases l2 with
    | nil => simp at h
    | cons b bs =>
      simp only [List.map_cons, List.cons.injEq] at h
      have ha : a = b := digitCharOf_inj (h1 a (by simp)) (h2 b (by simp)) h.1
      have hs : as = bs :=
        ih bs (fun d hd => h1 d (by simp [hd])) (fun d hd => h2 d (by simp [hd])) h.2
      rw [ha, hs]

theorem natToDec_injective : Function.Injective natToDec := by
  intro m n h
  have hd : (decDigits m).map digitCharOf = (decDigits n).map digitCharOf :=
    congrArg String.data h
  exact decDigits_injective (map_digitCharOf_inj _ _ (decDigits_lt m) (decDigits_lt n) hd)

theorem natToDec_ne_dash (m k : Nat) : natToDec m ≠ "-" ++ natToDec k := by
  intro h
  have hd := congrArg String.data h
  rw [String.data_append] at hd
  have hdash : ("-" : String).data = ['-'] := rfl
  rw [hdash, List.singleton_append] at hd
  cases hm : decDigits m with
  | nil => exact decDigits_ne_nil m hm
  | cons d ds =>
    have hd2 : (d :: ds).map digitCharOf = '-' :: (decDigits k).map digitCharOf := by
      rw [← hm]; exact hd
    simp only [List.map_cons, List.cons.injEq] at hd2
    exact digitCharOf_ne_dash (decDigits_lt m d (by rw [hm]; simp)) hd2.1

theorem intToDec_injective : Function.Injective intToDec := by
  intro i j h
  match i, j with
  | Int.ofNat m, Int.ofNat n =>
    exact congrArg Int.ofNat (natToDec_injective h)
  | Int.ofNat m, Int.negSucc n =>
    exact absurd h (natToDec_ne_dash m (n + 1))
  | Int.negSucc m, Int.ofNat n =>
    exact absurd h.symm (natToDec_ne_dash n (m + 1))
  | Int.negSucc m, Int.negSucc n =>
    have h' : "-" ++ natToDec (m + 1) = "-" ++ natToDec (n + 1) := h
    have hd := congrArg String.data h'
    rw [String.data_append, String.data_append] at hd
    have hn : natToDec (m + 1) = natToDec (n + 1) :=
      String.ext (List.append_cancel_left hd)
    have hmn := natToDec_injective hn
    exact congrArg Int.negSucc (by omega)

theorem append_intToDec_inj (p : String) {b1 b2 : Int}
    (h : p ++ intToDec b1 = p ++ intToDec b2) : b1 = b2 := by
  apply intToDec_injective
  apply String.ext
  have hd := congrArg String.data h
  rw [String.data_append, String.data_append] at hd
  exact List.append_cancel_left hd

theorem affix_intToDec_inj (p q : String) {b1 b2 : Int}
    (h : p ++ intToDec b1 ++ q = p ++ intToDec b2 ++ q) : b1 = b2 := by
  apply intToDec_injective
  apply String.ext
  have hd := congrArg String.data h
  simp only [String.data_append] at hd
  exact List.append_cancel_left (List.append_cancel_right hd)

/-! ## Lookup normal forms for the derived views -/

theorem env_dev_lookup (c : Config) :
    (ManosabaAIConfig.get_env_config c).lookup "development"
      = some (PyVal.obj
          [("NODE_ENV", .str "development"),
           ("NEXT_PUBLIC_API_URL", .str ("http://localhost:" ++ intToDec c.BACKEND_PORT)),
           ("NEXT_PUBLIC_WS_URL",
              .str ("ws://localhost:" ++ intToDec c.WEBSOCKET_PORT ++ "/ws"))]) := rfl

theorem api_endpoint_lookup (c : Config) :
    (ManosabaAIConfig.get_api_config c).lookup "api_endpoint"
      = some (PyVal.str ("http://localhost:" ++ intToDec c.BACKEND_PORT ++ "/api/v1")) := rfl

theorem env_prod_lookup (c : Config) :
    (ManosabaAIConfig.get_env_config c).lookup "production"
      = some (PyVal.obj
          [("NODE_ENV", .str "production"),
           ("NEXT_PUBLIC_API_URL", .str "https://api.manosaba.com"),
           ("NEXT_PUBLIC_WS_URL", .str "wss://api.manosaba.com/ws")]) := rfl

/-! ## The specification claims -/

/-- C1 (amended): `install()` returns `True` exactly when the spawned
install-command child process exits with status zero; when the child exits
with a non-zero status, the `CalledProcessError` raised by `check=True` is
caught and `install()` returns `False` after printing a failure message.
But when the child process cannot be launched at all (executable not
found), the `OSError` is not caught by the `except
subprocess.CalledProcessError` clause and propagates uncaught to the
caller. -/
theorem claim_C1_amended :
    ∀ (c : Config) (spawn : List String → SpawnOutcome) (r : Int) (e : String),
      ((ManosabaAIConfig.install c spawn).2 = Except.ok true
          ↔ spawn (pySplit c.INSTALL_COMMAND) = SpawnOutcome.exited 0)
      ∧ (r ≠ 0 →
          (ManosabaAIConfig.install c (fun _ => SpawnOutcome.exited r)).2 = Except.ok false
          ∧ ("❌ 安装失败: " ++ calledProcessErrorMsg (pySplit c.INSTALL_COMMAND) r)
              ∈ (ManosabaAIConfig.install c (fun _ => SpawnOutcome.exited r)).1)
      ∧ (ManosabaAIConfig.install c (fun _ => SpawnOutcome.launchFailure e)).2
          = Except.error e := by
  intro c spawn r e
  refine ⟨?_, ?_, rfl⟩
  · cases hs : spawn (pySplit c.INSTALL_COMMAND) with
    | exited rr =>
      by_cases hr : rr = 0
      · subst hr
        simp [ManosabaAIConfig.install, hs]
      · simp [ManosabaAIConfig.install, hs, hr]
    | launchFailure ee =>
      simp [ManosabaAIConfig.install, hs]
  · intro hr
    constructor
    · simp [ManosabaAIConfig.install, hr]
    · simp [ManosabaAIConfig.install, hr]

/-- C1 witness: concrete runs — an exit status of 0 yields `True`, an exit
status of 1 yields `False`, a launch failure escapes as an uncaught
error. -/
theorem claim_C1_witness :
    ((ManosabaAIConfig.install defaultConfig (fun _ => SpawnOutcome.exited 0)).2 = Except.ok true
        ↔ (fun _ => SpawnOutcome.exited 0) (pySplit defaultConfig.INSTALL_COMMAND)
            = SpawnOutcome.exited 0)
    ∧ ((ManosabaAIConfig.install defaultConfig (fun _ => SpawnOutcome.exited 1)).2
          = Except.ok false
        ∧ ("❌ 安装失败: " ++ calledProcessErrorMsg (pySplit defaultConfig.INSTALL_COMMAND) 1)
            ∈ (ManosabaAIConfig.install defaultConfig (fun _ => SpawnOutcome.exited 1)).1)
    ∧ (ManosabaAIConfig.install defaultConfig (fun _ => SpawnOutcome.launchFailure enoentMsg)).2
        = Except.error enoentMsg := by
  have h := claim_C1_amended defaultConfig (fun _ => SpawnOutcome.exited 0) 1 enoentMsg
  exact ⟨h.1, h.2.1 (by decide), h.2.2⟩

/-- C1 counterexample: the claim says a launch failure makes `install()`
return `False`; in the code the `OSError` is not caught, so the call
returns no boolean at all — the exception propagates. -/
theorem claim_C1_counterexample :
    (ManosabaAIConfig.install defaultConfig
        (fun _ => SpawnOutcome.launchFailure enoentMsg)).2 = Except.error enoentMsg
    ∧ (ManosabaAIConfig.install defaultConfig
        (fun _ => SpawnOutcome.launchFailure enoentMsg)).2 ≠ Except.ok false
    ∧ (ManosabaAIConfig.install defaultConfig
        (fun _ => SpawnOutcome.launchFailure enoentMsg)).2 ≠ Except.ok true := by
  refine ⟨rfl, ?_, ?_⟩ <;> simp [ManosabaAIConfig.install]

/-- C2: `get_env_config()["production"]` is one fixed mapping, the same
for every choice of the constants (in particular of `FRONTEND_PORT` and
`BACKEND_PORT`), while `get_env_config()["development"]` differs between
any two configurations whose `BACKEND_PORT` or `WEBSOCKET_PORT` differ,
because its `NEXT_PUBLIC_API_URL` and `NEXT_PUBLIC_WS_URL` interpolate
those ports. -/
theorem claim_C2 :
    (∀ c1 c2 : Config,
      (ManosabaAIConfig.get_env_config c1).lookup "production"
        = (ManosabaAIConfig.get_env_config c2).lookup "production")
    ∧ ∀ c1 c2 : Config,
        c1.BACKEND_PORT ≠ c2.BACKEND_PORT ∨ c1.WEBSOCKET_PORT ≠ c2.WEBSOCKET_PORT →
        (ManosabaAIConfig.get_env_config c1).lookup "development"
          ≠ (ManosabaAIConfig.get_env_config c2).lookup "development" := by
  constructor
  · intro c1 c2
    rfl
  · intro c1 c2 h heq
    rw [env_dev_lookup, env_dev_lookup] at heq
    simp only [Option.some.injEq, PyVal.obj.injEq, List.cons.injEq, Prod.mk.injEq,
      PyVal.str.injEq, and_true, true_and, List.nil_eq, and_self] at heq
    rcases h with h | h
    · exact h (append_intToDec_inj "http://localhost:" heq.1)
    · exact h (affix_intToDec_inj "ws://localhost:" "/ws" heq.2)

/-- C2 witness: with the default constants and the same constants with
`BACKEND_PORT` changed to 9000, the development mapping differs. -/
theorem claim_C2_witness :
    (ManosabaAIConfig.get_env_config defaultConfig).lookup "development"
      ≠ (ManosabaAIConfig.get_env_config backend9000).lookup "development" :=
  claim_C2.2 defaultConfig backend9000 (Or.inl (by decide))

/-- C3: `get_api_config()["api_endpoint"]` equals the interpolation of the
configured `BACKEND_PORT` into `http://localhost:{BACKEND_PORT}/api/v1`
for every integer value of the port, and two configurations with
different `BACKEND_PORT` produce different endpoint strings. -/
theorem claim_C3 :
    (∀ c : Config,
      (ManosabaAIConfig.get_api_config c).lookup "api_endpoint"
        = some (.str ("http://localhost:" ++ intToDec c.BACKEND_PORT ++ "/api/v1")))
    ∧ ∀ c1 c2 : Config,
        c1.BACKEND_PORT ≠ c2.BACKEND_PORT →
        (ManosabaAIConfig.get_api_config c1).lookup "api_endpoint"
          ≠ (ManosabaAIConfig.get_api_config c2).lookup "api_endpoint" := by
  constructor
  · intro c
    rfl
  · intro c1 c2 h heq
    rw [api_endpoint_lookup, api_endpoint_lookup] at heq
    simp only [Option.some.injEq, PyVal.str.injEq] at heq
    exact h (affix_intToDec_inj "http://localhost:" "/api/v1" heq)

/-- C3 witness: with `BACKEND_PORT` 8000 versus 9000, the endpoint strings
differ. -/
theorem claim_C3_witness :
    (ManosabaAIConfig.get_api_config defaultConfig).lookup "api_endpoint"
      ≠ (ManosabaAIConfig.get_api_config backend9000).lookup "api_endpoint" :=
  claim_C3.2 defaultConfig backend9000 (by decide)

/-- C4: every pure getter is total over the in-memory constants — its body
is a dict literal over the constants, with no failure path, so its
embedding always returns `Except.ok` — while `install()` is the one
facade operation with a run on which it does not return a value. -/
theorem claim_C4 :
    (∀ (c : Config) (g : GetterName), ∃ v, runGetter c g = Except.ok v)
    ∧ ∃ (spawn : List String → SpawnOutcome) (e : String),
        (ManosabaAIConfig.install defaultConfig spawn).2 = Except.error e := by
  constructor
  · intro c g
    exact ⟨getterFun g c, rfl⟩
  · exact ⟨fun _ => SpawnOutcome.launchFailure enoentMsg, enoentMsg, rfl⟩

/-- C5: calling any pure getter twice with the constants unchanged returns
structurally equal results, and serializing both results with
`json.dumps(..., indent=2, ensure_ascii=False)` produces byte-identical
output both times. -/
theorem claim_C5 :
    ∀ (g : GetterName) (c : Config),
      (callTwice (getterFun g) c).1 = (callTwice (getterFun g) c).2
      ∧ pyDumps (callTwice (getterFun g) c).1 = pyDumps (callTwice (getterFun g) c).2 :=
  fun _ _ => ⟨rfl, rfl⟩

/-- C6: the backend and websocket ports are independent fields — changing
only `BACKEND_PORT` leaves `get_api_config()["websocket_url"]` and
`get_env_config()["development"]["NEXT_PUBLIC_WS_URL"]` unchanged (they
interpolate `WEBSOCKET_PORT`), even though both ports are 8000 in the
default configuration. -/
theorem claim_C6 :
    (∀ (c : Config) (b : Int),
      (ManosabaAIConfig.get_api_config { c with BACKEND_PORT := b }).lookup "websocket_url"
        = (ManosabaAIConfig.get_api_config c).lookup "websocket_url"
      ∧ ((ManosabaAIConfig.get_env_config { c with BACKEND_PORT := b }).lookup
            "development").bind (fun d => d.lookup "NEXT_PUBLIC_WS_URL")
        = ((ManosabaAIConfig.get_env_config c).lookup
            "development").bind (fun d => d.lookup "NEXT_PUBLIC_WS_URL"))
    ∧ defaultConfig.BACKEND_PORT = 8000 ∧ defaultConfig.WEBSOCKET_PORT = 8000 :=
  ⟨fun _ _ => ⟨rfl, rfl⟩, rfl, rfl⟩

/-- C7: with `--get-config` the entry point prints the JSON document of an
object whose top-level keys are exactly `project`, `runtime`,
`dependencies`, `api`, `environment`, each holding the corresponding
getter's result. -/
theorem claim_C7 :
    ∀ (c : Config) (i n : Bool),
      mainAction c ⟨true, i, n⟩ = .printJson (fullConfigObj c)
      ∧ (fullConfigObj c).topKeys = ["project", "runtime", "dependencies", "api", "environment"]
      ∧ (fullConfigObj c).lookup "project" = some (ManosabaAIConfig.get_project_info c)
      ∧ (fullConfigObj c).lookup "runtime" = some (ManosabaAIConfig.get_runtime_config c)
      ∧ (fullConfigObj c).lookup "dependencies" = some (ManosabaAIConfig.get_dependencies c)
      ∧ (fullConfigObj c).lookup "api" = some (ManosabaAIConfig.get_api_config c)
      ∧ (fullConfigObj c).lookup "environment" = some (ManosabaAIConfig.get_env_config c) :=
  fun _ _ _ => ⟨rfl, rfl, rfl, rfl, rfl, rfl, rfl⟩

/-- C8: the `if args.get_config / elif args.install / elif args.info /
else` chain handles the flags mutually exclusively with first match
winning in that order; with no recognized flag the program prints the
parser's help text, an ordinary action (`MainAction` has no failure
case), not a failure. -/
theorem claim_C8 :
    ∀ (c : Config) (i n : Bool),
      mainAction c ⟨true, i, n⟩ = .printJson (fullConfigObj c)
      ∧ mainAction c ⟨false, true, n⟩ = .runInstall
      ∧ mainAction c ⟨false, false, true⟩
          = .printInfo ["项目: " ++ c.DISPLAY_NAME ++ " (" ++ c.PROJECT_NAME ++ ")",
                        "类型: " ++ c.PROJECT_TYPE,
                        "端口: " ++ intToDec c.FRONTEND_PORT]
      ∧ mainAction c ⟨false, false, false⟩ = .printHelp :=
  fun _ _ _ => ⟨rfl, rfl, rfl, rfl⟩

/-- C9: `get_project_info()` returns a record whose fields equal the
configured constants; with the default configuration its `name` is
`manosaba_ai` and its `type` is `nextjs`. -/
theorem claim_C9 :
    (∀ c : Config,
      (ManosabaAIConfig.get_project_info c).lookup "name" = some (.str c.PROJECT_NAME)
      ∧ (ManosabaAIConfig.get_project_info c).lookup "display_name"
          = some (.str c.DISPLAY_NAME)
      ∧ (ManosabaAIConfig.get_project_info c).lookup "type" = some (.str c.PROJECT_TYPE))
    ∧ (ManosabaAIConfig.get_project_info defaultConfig).lookup "name"
        = some (.str "manosaba_ai")
    ∧ (ManosabaAIConfig.get_project_info defaultConfig).lookup "type"
        = some (.str "nextjs") :=
  ⟨fun _ => ⟨rfl, rfl, rfl⟩, rfl, rfl⟩

/-- C10: `get_runtime_config()`'s `port` field equals `FRONTEND_PORT`, its
install/dev/build command fields equal `INSTALL_COMMAND`, `DEV_COMMAND`
and `BUILD_COMMAND`, and its test and lint commands are the literals
`pnpm test` and `pnpm run lint`. -/
theorem claim_C10 :
    ∀ c : Config,
      (ManosabaAIConfig.get_runtime_config c).lookup "port" = some (.int c.FRONTEND_PORT)
      ∧ (ManosabaAIConfig.get_runtime_config c).lookup "install_command"
          = some (.str c.INSTALL_COMMAND)
      ∧ (ManosabaAIConfig.get_runtime_config c).lookup "dev_command"
          = some (.str c.DEV_COMMAND)
      ∧ (ManosabaAIConfig.get_runtime_config c).lookup "build_command"
          = some (.str c.BUILD_COMMAND)
      ∧ (ManosabaAIConfig.get_runtime_config c).lookup "test_command"
          = some (.str "pnpm test")
      ∧ (ManosabaAIConfig.get_runtime_config c).lookup "lint_command"
          = some (.str "pnpm run lint") :=
  fun _ => ⟨rfl, rfl, rfl, rfl, rfl, rfl⟩
